import Mathlib

/-!
# pinMonitor — shallow embedding and verification

This file embeds the core of the pinMonitor ESP32 firmware in Lean 4 and
proves properties of the embedding.  The embedded code comes from:

* `components/debounce` (the revision embedded in `include/debounce.h`,
  i.e. the FreeRTOS-timer debouncer with a configurable `report_level`):
  `debounce_timer_cb`, `debounce_register_pin`, `debounce_init`.
* `components/wifi_provisioning/wifi_provisioning.c` — both the current
  revision (MAC-derived SoftAP SSID, `retry_count` reset on entry) and the
  older draft revision (`src/wifi_provisioning.c`, fixed `"ESP32_Setup"`
  SSID, module-level `retry_count` that is never reset).
* `components/wifi_provisioning/src/web_server.c` — the credential
  persistence paths of the current `submit_post_handler` and of the older
  draft `post_handler`/`save_credentials` chain.
* `main/main.c` (`app_main`): the boot-time credential check and the
  provisioning fallback.

Modelling conventions:
* NVS is a flat association list from (namespace, key) to string value.
* `esp_err_t` is a small inductive of the codes the embedded code uses.
* External driver calls (`gpio_config`, `xTimerCreate`,
  `gpio_isr_handler_add`, Wi-Fi association polling) are oracles supplied
  as explicit environment values, so every run of the embedded code is a
  pure function of its inputs.
* Machine integers are `Nat`; the single narrowing cast in the embedded
  code (`(uint8_t)level`) is written `% 256`.
* Logging (`ESP_LOGW`/`ESP_LOGI`) is modelled as appending a structured
  record to a log list; each constructor corresponds to one call site.
-/

/-- Model of `esp_err_t`, restricted to the codes the embedded code produces/tests. -/
inductive EspErr where
  | ok                  -- ESP_OK
  | invalidArg          -- ESP_ERR_INVALID_ARG
  | noMem               -- ESP_ERR_NO_MEM
  | invalidState        -- ESP_ERR_INVALID_STATE
  | nvsNotFound         -- ESP_ERR_NVS_NOT_FOUND
  | nvsInvalidLength    -- ESP_ERR_NVS_INVALID_LENGTH
  | fail                -- ESP_FAIL / other propagated error
deriving DecidableEq, Repr

/-! ## NVS model

NVS as used by pinMonitor stores string values under (namespace, key).
`nvs_get_str(h, key, buf, &len)` succeeds only when the key exists in the
opened namespace and the stored string plus its NUL terminator fits in the
buffer of the caller (`len` bytes), i.e. `value.length < len`. -/

/-- A flat NVS store: ((namespace, key), value) pairs, later writes first. -/
abbrev Nvs : Type := List ((String × String) × String)

/-- Raw lookup of (namespace, key). -/
def nvsLookup (nvs : Nvs) (ns key : String) : Option String :=
  (nvs.find? (fun e => e.fst = (ns, key))).map (·.snd)

/-- Model of `nvs_open(ns, NVS_READONLY, &h)`: fails with ESP_ERR_NVS_NOT_FOUND when
the namespace has never been written. -/
def nvs_open_ro (nvs : Nvs) (ns : String) : EspErr :=
  if nvs.any (fun e => e.fst.fst = ns) then .ok else .nvsNotFound

/-- Model of `nvs_get_str` into a buffer of `bufLen` bytes: the stored string and its
terminator must fit. Returns the value read on success. -/
def nvs_get_str (nvs : Nvs) (ns key : String) (bufLen : Nat) : EspErr × String :=
  match nvsLookup nvs ns key with
  | none => (.nvsNotFound, "")
  | some v => if v.length < bufLen then (.ok, v) else (.nvsInvalidLength, "")

/-- Model of `nvs_set_str`: overwrite-or-insert under (namespace, key). -/
def nvs_set_str (nvs : Nvs) (ns key val : String) : Nvs :=
  ((ns, key), val) :: (nvs.filter (fun e => e.fst ≠ (ns, key)))

/-! ## Debounce engine (revision embedded in `include/debounce.h`)

Data model from `debounce.h` / the embedded `debounce.c`. -/

/-- Model of `debounce_config_t`: per-pin configuration (`debounce.h`). `mqtt_topic`
is the caller-owned topic string; the engine stores the reference, modelled
here as the string itself. -/
structure debounce_config_t where
  pin : Nat
  intr_type : Nat
  pull_up : Bool
  pull_down : Bool
  debounce_time_us : Nat
  report_level : Nat          -- uint8_t, 0 = LOW, nonzero = HIGH
  mqtt_topic : String
deriving DecidableEq, Repr

/-- Model of `gpio_event_t` (`app_shared.h`): pin, sampled level, topic reference. -/
structure gpio_event_t where
  pin : Nat
  level : Nat
  topic : String
deriving DecidableEq, Repr

/-- Model of `debounce_entry_t`: config plus owned timer handle (an id here) and the
cached window length in ticks. -/
structure debounce_entry_t where
  config : debounce_config_t
  tmr : Nat
  debounce_ticks : Nat
deriving DecidableEq, Repr

/-- A FreeRTOS queue of `gpio_event_t` with a fixed capacity. -/
structure EventQueue where
  capacity : Nat
  items : List gpio_event_t
deriving DecidableEq, Repr

/-- Structured log records; one constructor per `ESP_LOG*` call site of the
debounce component that the claims mention. -/
inductive LogRec where
  | warnQueueFull (pin : Nat)    -- "Queue full; dropped GPIO %d event"
  | warnQueueNull (pin : Nat)    -- "gpio_event_queue is NULL; event lost (GPIO %d)"
  | warnMaxPins (pin : Nat)      -- "Max pins (%d) reached. GPIO %d not added."
  | infoRegistered (pin : Nat)   -- "Registered: GPIO %d, ..."
deriving DecidableEq, Repr

/-- Complete mutable state of the debounce module together with the shared
queue handle (`gpio_event_queue`, owned by main) and bookkeeping that makes
external effects observable: live timer handles, installed ISR bindings,
the log, and the total ticks any producer has ever been blocked. -/
structure DebState where
  entries : List debounce_entry_t   -- s_entries[0 .. s_count)
  nextTimer : Nat                   -- fresh timer-handle supply
  timersLive : List Nat             -- handles created and not deleted
  isrPins : List Nat                -- pins with an installed ISR binding
  queue : Option EventQueue         -- gpio_event_queue (NULL ↦ none)
  logs : List LogRec
  blockedTicks : Nat                -- total ticks producers spent blocked
deriving DecidableEq, Repr

/-- Constant `MAX_DEBOUNCE_PINS` (default build: 10). -/
def MAX_DEBOUNCE_PINS : Nat := 10

/-- Constant `configTICK_RATE_HZ` (ESP-IDF default FreeRTOS tick rate). -/
def configTICK_RATE_HZ : Nat := 100

/-- Conversion `pdMS_TO_TICKS`. -/
def pdMS_TO_TICKS (ms : Nat) : Nat := ms * configTICK_RATE_HZ / 1000

/-- Model of `xQueueSend(q, item, ticksToWait)`: appends when there is room; when the
queue is full it waits up to `ticksToWait` ticks for room (none appears in
this single-step model) and fails.  Returns (pdTRUE?, queue, ticks blocked);
with `ticksToWait = 0` it always returns immediately. -/
def xQueueSend (q : EventQueue) (item : gpio_event_t) (ticksToWait : Nat) :
    Bool × EventQueue × Nat :=
  if q.items.length < q.capacity then
    (true, { q with items := q.items ++ [item] }, 0)
  else
    (false, q, ticksToWait)

/-- The level that triggers emission: `e->config.report_level ? 1u : 0u`. -/
def reportTarget (cfg : debounce_config_t) : Nat :=
  if cfg.report_level ≠ 0 then 1 else 0

/-- Model of `debounce_timer_cb` (debounce.h:371–396): the FreeRTOS timer callback.
`timerId` is `pvTimerGetTimerID(xTimer)` (NULL ↦ none); `gpioLevel` is the
value `gpio_get_level` returns at expiry.  Samples the pin, returns early
when the stable level differs from `report_level`, otherwise builds the
event and non-blockingly enqueues it (ticksToWait = 0), logging a warning
when the queue is full or the queue handle is NULL.  Also returns the list
of events the callback constructed (zero or one). -/
def debounce_timer_cb (timerId : Option debounce_entry_t) (gpioLevel : Nat)
    (s : DebState) : DebState × List gpio_event_t :=
  match timerId with
  | none => (s, [])
  | some e =>
    if gpioLevel % 256 ≠ reportTarget e.config then
      (s, [])
    else
      let evt : gpio_event_t :=
        { pin := e.config.pin, level := gpioLevel, topic := e.config.mqtt_topic }
      match s.queue with
      | some q =>
        let r := xQueueSend q evt 0
        if r.1 then
          ({ s with queue := some r.2.1, blockedTicks := s.blockedTicks + r.2.2 }, [evt])
        else
          ({ s with queue := some r.2.1,
                    blockedTicks := s.blockedTicks + r.2.2,
                    logs := s.logs ++ [.warnQueueFull e.config.pin] }, [evt])
      | none =>
        ({ s with logs := s.logs ++ [.warnQueueNull e.config.pin] }, [evt])

/-- Environment for one `debounce_register_pin` call: results of the three
external driver calls it makes. -/
structure RegEnv where
  gpio_config_err : EspErr     -- result of gpio_config(&io)
  timer_create_ok : Bool       -- xTimerCreate returned a handle?
  isr_add_err : EspErr         -- result of gpio_isr_handler_add
deriving DecidableEq, Repr

/-- The all-success environment. -/
def regEnvOk : RegEnv := ⟨.ok, true, .ok⟩

/-- Model of `debounce_register_pin` (debounce.h:445–507).  Checks NULL config and
table capacity, configures the GPIO, computes the tick-clamped window,
creates the one-shot timer, fills the next table slot and installs the ISR
binding last; on ISR-install failure the timer is deleted and the count is
not advanced. No duplicate-pin check is performed. -/
def debounce_register_pin (config : Option debounce_config_t) (env : RegEnv)
    (s : DebState) : EspErr × DebState :=
  match config with
  | none => (.invalidArg, s)
  | some cfg =>
    if s.entries.length ≥ MAX_DEBOUNCE_PINS then
      (.noMem, { s with logs := s.logs ++ [.warnMaxPins cfg.pin] })
    else if env.gpio_config_err ≠ .ok then
      (env.gpio_config_err, s)
    else
      -- ticks = pdMS_TO_TICKS((us + 999) / 1000); clamped to >= 1
      let ticks0 := pdMS_TO_TICKS ((cfg.debounce_time_us + 999) / 1000)
      let ticks := if ticks0 = 0 then 1 else ticks0
      if ¬ env.timer_create_ok then
        (.noMem, s)
      else
        let tid := s.nextTimer
        let e : debounce_entry_t := ⟨cfg, tid, ticks⟩
        if env.isr_add_err ≠ .ok then
          -- timer created, then deleted on the failure path: handle supply
          -- advances but the timer is not live and no entry is exposed
          (env.isr_add_err, { s with nextTimer := tid + 1 })
        else
          (.ok, { s with
                    entries := s.entries ++ [e],
                    nextTimer := tid + 1,
                    timersLive := s.timersLive ++ [tid],
                    isrPins := s.isrPins ++ [cfg.pin],
                    logs := s.logs ++ [.infoRegistered cfg.pin] })

/-- Number of queue-full drop diagnostics emitted so far — the only accounting the program has
 of dropped events (one `ESP_LOGW` per drop). -/
def dropCount (s : DebState) : Nat :=
  (s.logs.filter (fun r => match r with | .warnQueueFull _ => true | _ => false)).length

/-- An empty debounce module state with the given queue handle. -/
def initState (q : Option EventQueue) : DebState :=
  ⟨[], 0, [], [], q, [], 0⟩

/-! ## SoftAP SSID derivation (`start_softap_provisioning`, current
`wifi_provisioning.c`)

`snprintf(ap_ssid, 32, "ESP32_Setup_%02X%02X%02X", mac[3], mac[4], mac[5])`
— the SSID is the fixed prefix plus the hex rendering of the last three
bytes of the SoftAP MAC address. -/

/-- A 6-byte hardware (MAC) address. -/
structure MacAddr where
  b0 : Nat
  b1 : Nat
  b2 : Nat
  b3 : Nat
  b4 : Nat
  b5 : Nat
deriving DecidableEq, Repr

/-- Upper-case hex digit for a nibble. -/
def hexDigit (n : Nat) : Char :=
  (['0','1','2','3','4','5','6','7','8','9','A','B','C','D','E','F']).getD n '0'

/-- Rendering of a byte as `%02X` (two hex digits). -/
def hex2 (n : Nat) : List Char :=
  [hexDigit (n / 16 % 16), hexDigit (n % 16)]

/-- Characters of the derived SoftAP SSID. -/
def apSsidChars (mac : MacAddr) : List Char :=
  "ESP32_Setup_".toList ++ hex2 mac.b3 ++ hex2 mac.b4 ++ hex2 mac.b5

/-- The derived SoftAP SSID ("ESP32_Setup_" + hex of mac bytes 3..5). -/
def apSsid (mac : MacAddr) : String :=
  String.mk (apSsidChars mac)

/-! ## Wi-Fi provisioning (current revision, `wifi_provisioning.c` with
MAC-derived AP SSID and `retry_count = 0` reset) -/

/-- Externally visible steps of a provisioning run, in program order.
Each constructor corresponds to one call site in `wifi_provisioning.c`. -/
inductive ProvEv where
  | staSetMode                   -- esp_wifi_set_mode(WIFI_MODE_STA)
  | staSetConfig                 -- esp_wifi_set_config(WIFI_IF_STA, ...)
  | wifiStart                    -- esp_wifi_start()
  | wifiConnect                  -- esp_wifi_connect()
  | delayMs (ms : Nat)           -- vTaskDelay(pdMS_TO_TICKS(ms))
  | pollAssoc (ok : Bool)        -- esp_wifi_sta_get_ap_info(...) == ESP_OK ?
  | logConnectFailed             -- ESP_LOGW "Failed to connect ..."
  | softAP (ssid : String)       -- AP mode configured with this SSID
  | webServerStart               -- web_server_start(...)
deriving DecidableEq, Repr

/-- Constant `MAX_RETRY` in `wifi_provisioning.c`. -/
def MAX_RETRY : Nat := 5

/-- Environment of a provisioning run: the NVS contents, the association
oracle (`pollOk k` = does the k-th `esp_wifi_sta_get_ap_info` poll see an
established association), and the device MAC. Wi-Fi driver control calls
are modelled as succeeding (their failure paths only abort via
`ESP_RETURN_ON_ERROR`/`ESP_ERROR_CHECK`, which no claim exercises). -/
structure ProvEnv where
  nvs : Nvs
  pollOk : Nat → Bool
  mac : MacAddr

/-- The body of the retry loop
`while (retry_count < MAX_RETRY) { vTaskDelay(2000ms); poll; retry_count++ }`,
written with explicit fuel `MAX_RETRY - retry_count` (the loop runs at most
that many iterations).  Returns (connected?, final retry_count, events). -/
def pollLoopAux (pollOk : Nat → Bool) : Nat → Nat → Bool × Nat × List ProvEv
  | 0, rc => (false, rc, [])
  | fuel + 1, rc =>
    let ev : List ProvEv := [.delayMs 2000, .pollAssoc (pollOk rc)]
    if pollOk rc then
      (true, rc, ev)
    else
      let r := pollLoopAux pollOk fuel (rc + 1)
      (r.1, r.2.1, ev ++ r.2.2)

/-- The retry loop entered with `retry_count = rc`. -/
def pollLoop (pollOk : Nat → Bool) (rc : Nat) : Bool × Nat × List ProvEv :=
  pollLoopAux pollOk (MAX_RETRY - rc) rc

/-- Model of `load_credentials_nvs` (current revision): opens namespace
`"wifi_store"` read-only and reads `"ssid"` (32-byte buffer) and
`"password"` (64-byte buffer). -/
def load_credentials_nvs (nvs : Nvs) : EspErr × String × String :=
  match nvs_open_ro nvs "wifi_store" with
  | .ok =>
    let rs := nvs_get_str nvs "wifi_store" "ssid" 32
    match rs.1 with
    | .ok =>
      let rp := nvs_get_str nvs "wifi_store" "password" 64
      (rp.1, rs.2, rp.2)
    | e => (e, rs.2, "")
  | e => (e, "", "")

/-- Model of `start_softap_provisioning` (current revision): configure the AP with
the MAC-derived SSID and start the provisioning web server. -/
def start_softap_provisioning (mac : MacAddr) : List ProvEv :=
  [.softAP (apSsid mac), .webServerStart]

/-- Model of `wifi_provisioning_start` (current revision): load stored credentials;
when they load, bring up STA mode, connect, reset `retry_count` to 0 and
poll up to `MAX_RETRY` times with a 2000 ms delay before each poll; on
success return ESP_OK, on budget exhaustion log and fall through to SoftAP
provisioning.  When the load fails, go to SoftAP provisioning directly.
Returns the result code and the event trace. -/
def wifi_provisioning_start (env : ProvEnv) : EspErr × List ProvEv :=
  let l := load_credentials_nvs env.nvs
  if l.1 = .ok then
    let pre : List ProvEv := [.staSetMode, .staSetConfig, .wifiStart, .wifiConnect]
    let r := pollLoop env.pollOk 0      -- retry_count = 0; while (...) { ... }
    if r.1 then
      (.ok, pre ++ r.2.2)
    else
      (.ok, pre ++ r.2.2 ++ [.logConnectFailed] ++ start_softap_provisioning env.mac)
  else
    (.ok, start_softap_provisioning env.mac)

/-! ## Wi-Fi provisioning (older draft revision,
`src/wifi_provisioning.c`): module-level `retry_count` with no reset,
fixed `"ESP32_Setup"` AP SSID, credentials under keys `"ssid"`/`"pass"`. -/

namespace V1

/-- Model of `load_credentials` (draft revision): namespace `"wifi_store"`, keys
`"ssid"` (32) and `"pass"` (64). -/
def load_credentials (nvs : Nvs) : EspErr × String × String :=
  match nvs_open_ro nvs "wifi_store" with
  | .ok =>
    let rs := nvs_get_str nvs "wifi_store" "ssid" 32
    match rs.1 with
    | .ok =>
      let rp := nvs_get_str nvs "wifi_store" "pass" 64
      (rp.1, rs.2, rp.2)
    | e => (e, rs.2, "")
  | e => (e, "", "")

/-- Model of `save_credentials` (draft revision): writes `"ssid"` and `"pass"` into
namespace `"wifi_store"` and commits. -/
def save_credentials (nvs : Nvs) (ssid pass : String) : Nvs :=
  nvs_set_str (nvs_set_str nvs "wifi_store" "ssid" ssid) "wifi_store" "pass" pass

/-- Model of `wifi_provisioning_start` (draft revision).  Here `rc` is the value of the
module-level `static int retry_count` on entry; the function never resets
it.  When stored credentials load, STA connect is initiated and the loop
`while (retry_count < MAX_RETRY)` polls; afterwards (or when the load
fails) the run falls through to the fixed-SSID SoftAP fallback.  Returns
(result, final retry_count, events). -/
def wifi_provisioning_start (env : ProvEnv) (rc : Nat) :
    EspErr × Nat × List ProvEv :=
  let l := load_credentials env.nvs
  if l.1 = .ok then
    let pre : List ProvEv := [.staSetMode, .staSetConfig, .wifiStart, .wifiConnect]
    let r := pollLoop env.pollOk rc
    if r.1 then
      (.ok, r.2.1, pre ++ r.2.2)
    else
      (.ok, r.2.1,
        pre ++ r.2.2 ++ [.logConnectFailed, .softAP "ESP32_Setup", .webServerStart])
  else
    (.ok, rc, [.softAP "ESP32_Setup", .webServerStart])

end V1

/-- Number of connection polls in a trace. -/
def pollCount (t : List ProvEv) : Nat :=
  (t.filter (fun e => match e with | .pollAssoc _ => true | _ => false)).length

/-! ## Provisioning web server — credential persistence

Two revisions exist in the repository:
* the current `submit_post_handler` persists Wi-Fi credentials under
  `"wifi_store"`: keys `"ssid"` and `"password"` (comment in the source:
  "unified key name = password"), plus MQTT settings under `"mqtt_store"`,
  then responds, delays 500 ms and calls `esp_restart()`;
* the older draft `post_handler` parses `ssid`/`pass` from the body,
  rejects empty fields, hands them to the registered save callback
  (`save_credentials`, which writes keys `"ssid"`/`"pass"`), then calls
  `esp_restart()`. -/

/-- Steps of a POST /submit handler run, in program order. -/
inductive WebEv where
  | nvsCommitWifi                -- nvs_commit on "wifi_store"
  | nvsCommitMqtt                -- nvs_commit on "mqtt_store"
  | respond                      -- httpd_resp_* success page
  | respondInvalid               -- "Invalid input" error page
  | delayMs (ms : Nat)           -- vTaskDelay(pdMS_TO_TICKS(ms))
  | restart                      -- esp_restart()
deriving DecidableEq, Repr

/-- Model of `nvs_set_str_checked`: store an empty string when the value is empty. -/
def nvs_set_str_checked (nvs : Nvs) (ns key val : String) : Nvs :=
  nvs_set_str nvs ns key (if val ≠ "" then val else "")

/-- Persistence/response/reboot tail of the current `submit_post_handler`
(web_server.c), applied to the already-decoded form fields (the extraction
buffers of the handler bound them: ssid < 32 bytes, passwords < 64, URI < 128).
Returns the new store and the step trace. -/
def submit_post_handler (nvs : Nvs) (ssid pass uri user mpass : String) :
    Nvs × List WebEv :=
  let n1 := nvs_set_str_checked nvs "wifi_store" "ssid" ssid
  let n2 := nvs_set_str_checked n1 "wifi_store" "password" pass
  let n3 := nvs_set_str_checked n2 "mqtt_store" "uri" uri
  let n4 := nvs_set_str_checked n3 "mqtt_store" "user" user
  let n5 := nvs_set_str_checked n4 "mqtt_store" "pass" mpass
  (n5, [.nvsCommitWifi, .nvsCommitMqtt, .respond, .delayMs 500, .restart])

/-- The older draft `post_handler` (web_server.c draft revision): rejects
an empty ssid or password without saving, otherwise saves through the
callback (`V1.save_credentials`) and reboots immediately after responding. -/
def post_handler (nvs : Nvs) (ssid pass : String) : Nvs × List WebEv :=
  if ssid.length = 0 ∨ pass.length = 0 then
    (nvs, [.respondInvalid])
  else
    (V1.save_credentials nvs ssid pass, [.nvsCommitWifi, .respond, .restart])

/-! ## Boot flow (`main/main.c`, current revision) -/

/-- Enumeration `wifi_state_t` (`wifi_manager.h`). -/
inductive wifi_state_t where
  | INIT
  | CONNECTING
  | CONNECTED
  | FAILED
  | PROVISIONING
  | SAVING_CREDENTIALS
  | REBOOTING
deriving DecidableEq, Repr

/-- The boot-time credential check in `app_main` (main.c): open
`"wifi_store"`, read `"ssid"` (32-byte buffer) and `"password"` (64-byte
buffer); valid iff both reads succeed and the ssid is non-empty. -/
def creds_valid (nvs : Nvs) : Bool :=
  match nvs_open_ro nvs "wifi_store" with
  | .ok =>
    let rs := nvs_get_str nvs "wifi_store" "ssid" 32
    let rp := nvs_get_str nvs "wifi_store" "password" 64
    rs.1 = .ok ∧ rp.1 = .ok ∧ rs.2 ≠ ""
  | _ => false

/-- The NVS reads of `wifi_init_sta_ext` (main.c): the client-mode connect
path reads `"wifi_store"`/`"ssid"` and `"wifi_store"`/`"password"` into
32- and 64-byte buffers; returns the pair on success. -/
def wifi_init_sta_read (nvs : Nvs) : Option (String × String) :=
  match nvs_open_ro nvs "wifi_store" with
  | .ok =>
    let rs := nvs_get_str nvs "wifi_store" "ssid" 32
    match rs.1 with
    | .ok =>
      let rp := nvs_get_str nvs "wifi_store" "password" 64
      match rp.1 with
      | .ok => some (rs.2, rp.2)
      | _ => none
    | _ => none
  | _ => none

/-- Event trace of `app_main` (current main.c) after the one-time service
bring-up: when the boot check deems the credentials valid it runs the
client-mode path (`wifi_init_sta_ext`, which connects and then blocks until
association); otherwise it runs `wifi_provisioning_init` +
`wifi_provisioning_start`.  The event-group wait of the valid path is
outside this model; its trace ends at the connect initiation. -/
def app_main_trace (nvs : Nvs) (pollOk : Nat → Bool) (mac : MacAddr) :
    List ProvEv :=
  if creds_valid nvs then
    [.staSetMode, .staSetConfig, .wifiStart, .wifiConnect]
  else
    (wifi_provisioning_start ⟨nvs, pollOk, mac⟩).2

/-- Spec-side abstraction: the connectivity states a trace passes through,
in the vocabulary of `wifi_state_t` (spec §3): initiating a client-mode
connection ↦ CONNECTING, a successful association poll ↦ CONNECTED,
exhausting the retry budget ↦ FAILED, bringing up the SoftAP portal ↦
PROVISIONING. -/
def statesOfTrace (t : List ProvEv) : List wifi_state_t :=
  t.filterMap fun e =>
    match e with
    | .wifiConnect => some .CONNECTING
    | .pollAssoc true => some .CONNECTED
    | .logConnectFailed => some .FAILED
    | .softAP _ => some .PROVISIONING
    | _ => none

/-- Observed connectivity-state sequence of a boot: the run starts in
INIT, then passes through the states of the boot trace. -/
def app_main_states (nvs : Nvs) (pollOk : Nat → Bool) (mac : MacAddr) :
    List wifi_state_t :=
  .INIT :: statesOfTrace (app_main_trace nvs pollOk mac)

/-! ## Witness fixtures (concrete values used by witness theorems) -/

/-- Concrete pin-4 configuration (the `pin4` registration in main.c). -/
def cfgW : debounce_config_t :=
  ⟨4, 3, true, false, 50000, 1, "/pinMonitor/gpio4"⟩

/-- A concrete registered entry for `cfgW`. -/
def entW : debounce_entry_t := ⟨cfgW, 0, 5⟩

/-- An empty 10-slot event queue (main.c creates the queue with length 10). -/
def qW : EventQueue := ⟨10, []⟩

/-- Module state with the empty queue installed. -/
def stW : DebState := initState (some qW)

/-- Module state after one successful registration of `cfgW`. -/
def st1 : DebState := (debounce_register_pin (some cfgW) regEnvOk stW).2

/-- A full 10-entry table (for the exhaustion witness). -/
def stFull : DebState := { stW with entries := List.replicate 10 entW }

/-- A full queue: capacity 1 holding one event. -/
def qFull : EventQueue := ⟨1, [⟨4, 1, "/pinMonitor/gpio4"⟩]⟩

/-- Module state whose queue is full. -/
def stQFull : DebState := initState (some qFull)

/-- Module state whose queue handle is NULL. -/
def stNoQ : DebState := initState none

/-! ## C1 — report-level filter at window expiry -/

/-- C1: for a registered channel at a debounce-window expiry (queue present
with space), the event `{pin, level, topic}` is enqueued iff the sampled
level equals the configured report level; when it differs, the callback
changes nothing and produces zero events. -/
theorem C1_report_level_filter (e : debounce_entry_t) (lvl : Nat) (s : DebState)
    (q : EventQueue) (hq : s.queue = some q)
    (hspace : q.items.length < q.capacity) :
    ((debounce_timer_cb (some e) lvl s).1.queue =
        some { q with items :=
          q.items ++ [⟨e.config.pin, lvl, e.config.mqtt_topic⟩] }
      ↔ lvl % 256 = reportTarget e.config)
    ∧ (lvl % 256 ≠ reportTarget e.config →
        debounce_timer_cb (some e) lvl s = (s, [])) := by
  by_cases hm : lvl % 256 = reportTarget e.config
  · have hcond : ¬ (lvl % 256 ≠ reportTarget e.config) := not_not_intro hm
    constructor
    · simp only [debounce_timer_cb, if_neg hcond, hq, xQueueSend, if_pos hspace]
      simpa using hm
    · intro hc; exact absurd hm hc
  · constructor
    · constructor
      · intro hcontra
        simp only [debounce_timer_cb, if_pos hm] at hcontra
        rw [hq] at hcontra
        have h2 := congrArg EventQueue.items (Option.some.inj hcontra)
        simp at h2
      · intro hc; exact absurd hc hm
    · intro _
      simp only [debounce_timer_cb, if_pos hm]

/-- Witness for C1 at a concrete input: entry `entW` (report HIGH), sampled
level 1, empty 10-slot queue. -/
theorem C1_report_level_filter_witness :
    ((debounce_timer_cb (some entW) 1 stW).1.queue =
        some { qW with items :=
          qW.items ++ [⟨entW.config.pin, 1, entW.config.mqtt_topic⟩] }
      ↔ 1 % 256 = reportTarget entW.config)
    ∧ (1 % 256 ≠ reportTarget entW.config →
        debounce_timer_cb (some entW) 1 stW = (stW, [])) :=
  C1_report_level_filter entW 1 stW qW rfl (by decide)

/-! ## C4 — duplicate registration -/

/-- C4 counterexample: after registering pin 4 (state `st1`, one entry),
a second `debounce_register_pin` call with the same configuration does not
return a duplicate-registration error — it returns ESP_OK and the table
then holds two entries for pin 4 (with distinct timers). -/
theorem C4_counterexample :
    st1.entries.length = 1 ∧
    (st1.entries.map (fun e => e.config.pin)) = [4] ∧
    (debounce_register_pin (some cfgW) regEnvOk st1).1 = .ok ∧
    (debounce_register_pin (some cfgW) regEnvOk st1).2.entries.map
      (fun e => e.config.pin) = [4, 4] ∧
    (debounce_register_pin (some cfgW) regEnvOk st1).2.timersLive = [0, 1] := by
  refine ⟨rfl, rfl, rfl, rfl, rfl⟩

/-- C4 (amended): registering an already-registered pin again is not
detected: with table capacity left and the driver calls succeeding, the
second call returns ESP_OK and appends a second entry with a fresh timer,
leaving every previously registered entry — including the timer of the
original entry — unchanged. -/
theorem C4_amended_duplicate_appends (cfg : debounce_config_t) (s : DebState)
    (hdup : ∃ e ∈ s.entries, e.config.pin = cfg.pin)
    (hcap : s.entries.length < MAX_DEBOUNCE_PINS) :
    (debounce_register_pin (some cfg) regEnvOk s).1 = .ok ∧
    (∃ tk, (debounce_register_pin (some cfg) regEnvOk s).2.entries =
        s.entries ++ [⟨cfg, s.nextTimer, tk⟩]) ∧
    (debounce_register_pin (some cfg) regEnvOk s).2.entries.take
        s.entries.length = s.entries := by
  have hne : ¬ s.entries.length ≥ MAX_DEBOUNCE_PINS := by omega
  have hent : (debounce_register_pin (some cfg) regEnvOk s).2.entries =
      s.entries ++ [⟨cfg, s.nextTimer,
        if pdMS_TO_TICKS ((cfg.debounce_time_us + 999) / 1000) = 0 then 1
        else pdMS_TO_TICKS ((cfg.debounce_time_us + 999) / 1000)⟩] := by
    simp [debounce_register_pin, regEnvOk, if_neg hne]
  refine ⟨?_, ⟨_, hent⟩, ?_⟩
  · simp [debounce_register_pin, regEnvOk, if_neg hne]
  · rw [hent]
    exact List.take_left _ _

/-- Witness for C4 (amended): second registration of pin 4 on `st1`. -/
theorem C4_amended_duplicate_appends_witness :
    (debounce_register_pin (some cfgW) regEnvOk st1).1 = .ok ∧
    (∃ tk, (debounce_register_pin (some cfgW) regEnvOk st1).2.entries =
        st1.entries ++ [⟨cfgW, st1.nextTimer, tk⟩]) ∧
    (debounce_register_pin (some cfgW) regEnvOk st1).2.entries.take
        st1.entries.length = st1.entries :=
  C4_amended_duplicate_appends cfgW st1
    ⟨⟨cfgW, 0, 5⟩, by constructor <;> first | rfl | exact List.mem_singleton.mpr rfl⟩
    (by decide)

/-! ## C5 — table exhaustion -/

/-- C5: registration against a full table returns ESP_ERR_NO_MEM and leaves
every previously registered entry, every live timer, every ISR binding and
the queue untouched (no timer is created and no ISR binding installed for
the rejected pin). -/
theorem C5_table_exhaustion (cfg : debounce_config_t) (env : RegEnv) (s : DebState)
    (hfull : MAX_DEBOUNCE_PINS ≤ s.entries.length) :
    (debounce_register_pin (some cfg) env s).1 = .noMem ∧
    (debounce_register_pin (some cfg) env s).2.entries = s.entries ∧
    (debounce_register_pin (some cfg) env s).2.timersLive = s.timersLive ∧
    (debounce_register_pin (some cfg) env s).2.isrPins = s.isrPins ∧
    (debounce_register_pin (some cfg) env s).2.nextTimer = s.nextTimer ∧
    (debounce_register_pin (some cfg) env s).2.queue = s.queue := by
  have h : s.entries.length ≥ MAX_DEBOUNCE_PINS := hfull
  simp [debounce_register_pin, if_pos h]

/-- Witness for C5: an 11th registration against the full table `stFull`. -/
theorem C5_table_exhaustion_witness :
    (debounce_register_pin (some cfgW) regEnvOk stFull).1 = .noMem ∧
    (debounce_register_pin (some cfgW) regEnvOk stFull).2.entries = stFull.entries ∧
    (debounce_register_pin (some cfgW) regEnvOk stFull).2.timersLive = stFull.timersLive ∧
    (debounce_register_pin (some cfgW) regEnvOk stFull).2.isrPins = stFull.isrPins ∧
    (debounce_register_pin (some cfgW) regEnvOk stFull).2.nextTimer = stFull.nextTimer ∧
    (debounce_register_pin (some cfgW) regEnvOk stFull).2.queue = stFull.queue :=
  C5_table_exhaustion cfgW regEnvOk stFull (by decide)

/-! ## C6 — queue-full drop policy -/

/-- C6: when the event queue is at capacity, the enqueue in the timer callback
is issued with a zero wait (the producer is never blocked: the cumulative
blocked-tick counter does not move), the event is dropped (queue contents
unchanged), and exactly one drop diagnostic is recorded for the dropped
event. -/
theorem C6_queue_full_drop (e : debounce_entry_t) (lvl : Nat) (s : DebState)
    (q : EventQueue) (hq : s.queue = some q)
    (hfull : q.capacity ≤ q.items.length)
    (hmatch : lvl % 256 = reportTarget e.config) :
    (debounce_timer_cb (some e) lvl s).1.queue = some q ∧
    (debounce_timer_cb (some e) lvl s).1.blockedTicks = s.blockedTicks ∧
    dropCount (debounce_timer_cb (some e) lvl s).1 = dropCount s + 1 ∧
    (debounce_timer_cb (some e) lvl s).1.entries = s.entries := by
  have hcond : ¬ (lvl % 256 ≠ reportTarget e.config) := not_not_intro hmatch
  have hnospace : ¬ q.items.length < q.capacity := by omega
  simp [debounce_timer_cb, if_neg hcond, hq, xQueueSend, if_neg hnospace, dropCount,
    List.filter_append]

/-- Witness for C6: expiry at level 1 for `entW` against the full queue. -/
theorem C6_queue_full_drop_witness :
    (debounce_timer_cb (some entW) 1 stQFull).1.queue = some qFull ∧
    (debounce_timer_cb (some entW) 1 stQFull).1.blockedTicks = stQFull.blockedTicks ∧
    dropCount (debounce_timer_cb (some entW) 1 stQFull).1 = dropCount stQFull + 1 ∧
    (debounce_timer_cb (some entW) 1 stQFull).1.entries = stQFull.entries :=
  C6_queue_full_drop entW 1 stQFull qFull rfl (by decide) (by decide)

/-! ## C9 — NULL queue handle at expiry -/

/-- C9: when the global queue handle is NULL at a window expiry, the timer
callback returns without enqueuing (the queue stays NULL — there is nothing
to dereference in this total model), modifies no state other than the log,
and the only possible log addition is the single lost-event diagnostic
(emitted exactly when the sampled level matches the report level of a
non-NULL entry). -/
theorem C9_null_queue_lost_event (tid : Option debounce_entry_t) (lvl : Nat)
    (s : DebState) (hq : s.queue = none) :
    (debounce_timer_cb tid lvl s).1 =
      { s with logs := (debounce_timer_cb tid lvl s).1.logs } ∧
    (debounce_timer_cb tid lvl s).1.queue = none ∧
    ((debounce_timer_cb tid lvl s).1.logs = s.logs ∨
      (∃ p, (debounce_timer_cb tid lvl s).1.logs = s.logs ++ [.warnQueueNull p])) := by
  obtain ⟨en, nt, tl, ip, qu, lg, bt⟩ := s
  simp only at hq
  subst hq
  match tid with
  | none => simp [debounce_timer_cb]
  | some e =>
    by_cases hm : lvl % 256 = reportTarget e.config
    · have hcond : ¬ (lvl % 256 ≠ reportTarget e.config) := not_not_intro hm
      refine ⟨?_, ?_, Or.inr ⟨e.config.pin, ?_⟩⟩ <;>
        simp [debounce_timer_cb, if_neg hcond]
    · refine ⟨?_, ?_, Or.inl ?_⟩ <;> simp [debounce_timer_cb, if_pos hm]

/-- Witness for C9: expiry for `entW` at level 1 with a NULL queue handle. -/
theorem C9_null_queue_lost_event_witness :
    (debounce_timer_cb (some entW) 1 stNoQ).1 =
      { stNoQ with logs := (debounce_timer_cb (some entW) 1 stNoQ).1.logs } ∧
    (debounce_timer_cb (some entW) 1 stNoQ).1.queue = none ∧
    ((debounce_timer_cb (some entW) 1 stNoQ).1.logs = stNoQ.logs ∨
      (∃ p, (debounce_timer_cb (some entW) 1 stNoQ).1.logs =
        stNoQ.logs ++ [.warnQueueNull p])) :=
  C9_null_queue_lost_event (some entW) 1 stNoQ rfl

/-! ## Connectivity bring-up: retry budget (C3, C10) -/

/-- With an association oracle that never reports success, the retry loop
runs its full fuel: one 2000 ms delay before each poll, `fuel` polls in
total, and the retry counter advances by `fuel`. -/
theorem pollLoopAux_never (pollOk : Nat → Bool) (hp : ∀ k, pollOk k = false) :
    ∀ fuel rc, pollLoopAux pollOk fuel rc =
      (false, rc + fuel,
        (List.replicate fuel ([.delayMs 2000, .pollAssoc false] : List ProvEv)).flatten) := by
  intro fuel
  induction fuel with
  | zero => intro rc; simp [pollLoopAux]
  | succ n ih =>
    intro rc
    simp [pollLoopAux, hp rc, ih (rc + 1)]
    exact ⟨by omega, by simp [List.replicate_succ]⟩

/-- Concrete NVS store holding a loadable credential. -/
def nvsW : Nvs :=
  [(("wifi_store", "ssid"), "MyNet"), (("wifi_store", "password"), "pw1234")]

/-- Concrete MAC address for witnesses. -/
def macW : MacAddr := ⟨0x24, 0x6F, 0x28, 0xAB, 0xCD, 0xEF⟩

/-- Provisioning environment: stored credential, association never
established. -/
def provEnvW : ProvEnv := ⟨nvsW, fun _ => false, macW⟩

/-- C3: for a stored credential that never yields a successful connection,
`wifi_provisioning_start` performs exactly `MAX_RETRY = 5` polls, each
immediately preceded by a 2000 ms delay, then falls back to SoftAP
provisioning, and still returns ESP_OK (the failure is never fatal). -/
theorem C3_retry_budget (env : ProvEnv)
    (hcred : (load_credentials_nvs env.nvs).1 = .ok)
    (hp : ∀ k, env.pollOk k = false) :
    (wifi_provisioning_start env).1 = .ok ∧
    (wifi_provisioning_start env).2 =
      [.staSetMode, .staSetConfig, .wifiStart, .wifiConnect] ++
        (List.replicate 5 ([.delayMs 2000, .pollAssoc false] : List ProvEv)).flatten ++
        [.logConnectFailed] ++ start_softap_provisioning env.mac ∧
    pollCount (wifi_provisioning_start env).2 = 5 := by
  have hl : pollLoop env.pollOk 0 =
      (false, 5, (List.replicate 5 ([.delayMs 2000, .pollAssoc false] : List ProvEv)).flatten) := by
    simpa [pollLoop, MAX_RETRY] using pollLoopAux_never env.pollOk hp 5 0
  refine ⟨?_, ?_, ?_⟩ <;>
    simp [wifi_provisioning_start, hcred, hl, pollCount,
      start_softap_provisioning, List.filter_append]

/-- Witness for C3 at the concrete environment `provEnvW`. -/
theorem C3_retry_budget_witness :
    (wifi_provisioning_start provEnvW).1 = .ok ∧
    (wifi_provisioning_start provEnvW).2 =
      [.staSetMode, .staSetConfig, .wifiStart, .wifiConnect] ++
        (List.replicate 5 ([.delayMs 2000, .pollAssoc false] : List ProvEv)).flatten ++
        [.logConnectFailed] ++ start_softap_provisioning provEnvW.mac ∧
    pollCount (wifi_provisioning_start provEnvW).2 = 5 :=
  C3_retry_budget provEnvW (by decide) (fun _ => rfl)

/-- C10: in the draft revision the module-level `retry_count` is never
reset, so the 5-attempt budget is shared across calls in one process run:
a first never-connecting call leaves `retry_count = 5` after exactly 5
polls, and a second call then performs zero polls (and zero delays) and
proceeds directly to the SoftAP fallback. -/
theorem C10_shared_retry_budget (env : ProvEnv)
    (hcred : (V1.load_credentials env.nvs).1 = .ok)
    (hp : ∀ k, env.pollOk k = false) :
    (V1.wifi_provisioning_start env 0).2.1 = 5 ∧
    pollCount (V1.wifi_provisioning_start env 0).2.2 = 5 ∧
    (V1.wifi_provisioning_start env 5).2.2 =
      [.staSetMode, .staSetConfig, .wifiStart, .wifiConnect,
       .logConnectFailed, .softAP "ESP32_Setup", .webServerStart] ∧
    pollCount (V1.wifi_provisioning_start env 5).2.2 = 0 := by
  have hl0 : pollLoop env.pollOk 0 =
      (false, 5, (List.replicate 5 ([.delayMs 2000, .pollAssoc false] : List ProvEv)).flatten) := by
    simpa [pollLoop, MAX_RETRY] using pollLoopAux_never env.pollOk hp 5 0
  have hl5 : pollLoop env.pollOk 5 = (false, 5, []) := by
    simpa [pollLoop, MAX_RETRY] using pollLoopAux_never env.pollOk hp 0 5
  refine ⟨?_, ?_, ?_, ?_⟩ <;>
    simp [V1.wifi_provisioning_start, hcred, hl0, hl5, pollCount, List.filter_append]

/-- Concrete store for the draft revision (keys `"ssid"`/`"pass"`). -/
def nvsV1 : Nvs :=
  [(("wifi_store", "ssid"), "MyNet"), (("wifi_store", "pass"), "pw1234")]

/-- Provisioning environment for the draft revision. -/
def provEnvV1 : ProvEnv := ⟨nvsV1, fun _ => false, macW⟩

/-- Witness for C10 at the concrete environment `provEnvV1`. -/
theorem C10_shared_retry_budget_witness :
    (V1.wifi_provisioning_start provEnvV1 0).2.1 = 5 ∧
    pollCount (V1.wifi_provisioning_start provEnvV1 0).2.2 = 5 ∧
    (V1.wifi_provisioning_start provEnvV1 5).2.2 =
      [.staSetMode, .staSetConfig, .wifiStart, .wifiConnect,
       .logConnectFailed, .softAP "ESP32_Setup", .webServerStart] ∧
    pollCount (V1.wifi_provisioning_start provEnvV1 5).2.2 = 0 :=
  C10_shared_retry_budget provEnvV1 (by decide) (fun _ => rfl)

/-! ## C2 — boot with absent/invalid credentials -/

/-- A credential the boot check accepts also loads in the provisioning
module: both read `"wifi_store"`/`"ssid"` (32) and `"password"` (64). -/
theorem load_ok_of_creds_valid (nvs : Nvs) (h : creds_valid nvs = true) :
    (load_credentials_nvs nvs).1 = .ok := by
  unfold creds_valid at h
  cases hopen : nvs_open_ro nvs "wifi_store"
  case ok =>
    rw [hopen] at h
    simp only [decide_eq_true_eq] at h
    obtain ⟨h1, h2, _⟩ := h
    simp [load_credentials_nvs, hopen, h1, h2]
  all_goals (rw [hopen] at h; simp at h)

/-- Contrapositive: when the stored credential does not load, the boot
check rejects it. -/
theorem creds_valid_false_of_load_fail (nvs : Nvs)
    (h : (load_credentials_nvs nvs).1 ≠ .ok) : creds_valid nvs = false := by
  by_contra hc
  exact h (load_ok_of_creds_valid nvs (by simpa using hc))

/-- C2 (amended): when the stored credential is absent — one of the two
fields fails to load — the boot check rejects it, the load performed by the
provisioning module fails the same way, no client-mode connection is attempted, and
the observed connectivity-state sequence is exactly [Init, Provisioning]. -/
theorem C2_amended_absent_credential (nvs : Nvs) (pollOk : Nat → Bool)
    (mac : MacAddr) (habsent : (load_credentials_nvs nvs).1 ≠ .ok) :
    creds_valid nvs = false ∧
    app_main_states nvs pollOk mac = [.INIT, .PROVISIONING] := by
  have hcv := creds_valid_false_of_load_fail nvs habsent
  refine ⟨hcv, ?_⟩
  simp [app_main_states, app_main_trace, hcv, wifi_provisioning_start, habsent,
    start_softap_provisioning, statesOfTrace]

/-- Witness for C2 (amended): an empty store (no credential at all). -/
theorem C2_amended_absent_credential_witness :
    creds_valid ([] : Nvs) = false ∧
    app_main_states ([] : Nvs) (fun _ => false) macW = [.INIT, .PROVISIONING] :=
  C2_amended_absent_credential [] (fun _ => false) macW (by decide)

/-- A stored, loadable, but invalid credential: both keys present, the
identity empty. -/
def nvsEmptySsid : Nvs :=
  [(("wifi_store", "ssid"), ""), (("wifi_store", "password"), "secret")]

/-- C2 counterexample: with an invalid (empty-identity) stored credential,
the boot check rejects it, but the provisioning module re-loads the
credential successfully and attempts a client-mode connection first — the
observed sequence is [Init, Connecting, Failed, Provisioning], not the
claimed [Init, Provisioning]. -/
theorem C2_counterexample :
    creds_valid nvsEmptySsid = false ∧
    app_main_states nvsEmptySsid (fun _ => false) macW =
      [.INIT, .CONNECTING, .FAILED, .PROVISIONING] ∧
    app_main_states nvsEmptySsid (fun _ => false) macW ≠ [.INIT, .PROVISIONING] := by
  refine ⟨by decide, by decide, by decide⟩

/-! ## C7 — credential persistence round-trip -/

/-- Dropping entries under a different (namespace, key) does not change
which entry is found first for the key of interest. -/
theorem find_filter_ne (l : List ((String × String) × String))
    (a b : String × String) (hab : b ≠ a) :
    (l.filter (fun e => e.fst ≠ a)).find? (fun e => e.fst = b) =
      l.find? (fun e => e.fst = b) := by
  induction l with
  | nil => rfl
  | cons x xs ih =>
    by_cases hxa : x.fst = a
    · have hxb : ¬ x.fst = b := by rw [hxa]; exact fun hc => hab hc.symm
      rw [List.filter_cons_of_neg (by simpa using hxa),
        List.find?_cons_of_neg _ (by simpa using hxb), ih]
    · rw [List.filter_cons_of_pos (by simpa using hxa)]
      by_cases hxb : x.fst = b
      · rw [List.find?_cons_of_pos _ (by simpa using hxb),
          List.find?_cons_of_pos _ (by simpa using hxb)]
      · rw [List.find?_cons_of_neg _ (by simpa using hxb),
          List.find?_cons_of_neg _ (by simpa using hxb), ih]

/-- Reading back the (namespace, key) just written. -/
theorem nvsLookup_set_same (n : Nvs) (ns k v : String) :
    nvsLookup (nvs_set_str n ns k v) ns k = some v := by
  simp [nvsLookup, nvs_set_str, List.find?_cons]

/-- Writing one (namespace, key) leaves every other (namespace, key)
unchanged. -/
theorem nvsLookup_set_other (n : Nvs) (ns k v ns' k' : String)
    (h : (ns', k') ≠ (ns, k)) :
    nvsLookup (nvs_set_str n ns k v) ns' k' = nvsLookup n ns' k' := by
  have hhead : ¬ ((ns, k) = (ns', k')) := fun hc => h hc.symm
  simp only [nvsLookup, nvs_set_str]
  rw [List.find?_cons_of_neg _ (by simpa using hhead),
    find_filter_ne n (ns, k) (ns', k') h]

/-- A namespace that holds some readable key opens successfully. -/
theorem nvs_open_ro_of_lookup (n : Nvs) (ns k v : String)
    (h : nvsLookup n ns k = some v) : nvs_open_ro n ns = .ok := by
  unfold nvsLookup at h
  cases hf : n.find? (fun e => e.fst = (ns, k)) with
  | none => rw [hf] at h; cases h
  | some entry =>
    have hmem := List.mem_of_find?_eq_some hf
    have hfst : entry.fst = (ns, k) := by
      have := List.find?_some hf
      simpa using this
    unfold nvs_open_ro
    rw [if_pos]
    rw [List.any_eq_true]
    refine ⟨entry, hmem, ?_⟩
    simp [hfst]

/-- C7 counterexample: submitting "MyNet"/"pw1234" through the draft
handler chain (`post_handler` → `save_credentials`) persists the secret
under `"wifi_store"`/`"pass"`, while the boot-time credential check and the
client-mode connect read `"wifi_store"`/`"password"` — the persisted pair is
not under the keys those readers use, so the boot check fails and the
client-mode read finds nothing. -/
theorem C7_counterexample :
    (post_handler [] "MyNet" "pw1234").1 =
      V1.save_credentials [] "MyNet" "pw1234" ∧
    nvsLookup (post_handler [] "MyNet" "pw1234").1 "wifi_store" "pass" =
      some "pw1234" ∧
    nvsLookup (post_handler [] "MyNet" "pw1234").1 "wifi_store" "password" =
      none ∧
    creds_valid (post_handler [] "MyNet" "pw1234").1 = false ∧
    wifi_init_sta_read (post_handler [] "MyNet" "pw1234").1 = none := by
  refine ⟨by decide, by decide, by decide, by decide, by decide⟩

/-- C7 (amended): submitting credentials through the current provisioning
form handler persists exactly the submitted identity/secret pair under
`"wifi_store"`/`"ssid"` and `"wifi_store"`/`"password"` — the very keys the
boot-time check and the client-mode connect read, so both read back exactly
the submitted pair — and the handler then responds, waits 500 ms and
restarts (the save precedes the restart).  The older draft save path
instead writes the secret under `"pass"`, which those readers never
consult. -/
theorem C7_amended_submit_persists (nvs : Nvs) (ssid pass uri user mpass : String)
    (hs : ssid.length < 32) (hpw : pass.length < 64) (hne : ssid ≠ "") :
    nvsLookup (submit_post_handler nvs ssid pass uri user mpass).1
      "wifi_store" "ssid" = some ssid ∧
    nvsLookup (submit_post_handler nvs ssid pass uri user mpass).1
      "wifi_store" "password" = some pass ∧
    creds_valid (submit_post_handler nvs ssid pass uri user mpass).1 = true ∧
    wifi_init_sta_read (submit_post_handler nvs ssid pass uri user mpass).1 =
      some (ssid, pass) ∧
    (submit_post_handler nvs ssid pass uri user mpass).2 =
      [.nvsCommitWifi, .nvsCommitMqtt, .respond, .delayMs 500, .restart] := by
  have hsetp : ∀ s : String, (if s ≠ "" then s else "") = s := by
    intro s; by_cases h : s = "" <;> simp [h]
  have hssid : nvsLookup (submit_post_handler nvs ssid pass uri user mpass).1
      "wifi_store" "ssid" = some ssid := by
    simp only [submit_post_handler, nvs_set_str_checked, hsetp]
    rw [nvsLookup_set_other _ _ _ _ _ _ (by simp),
      nvsLookup_set_other _ _ _ _ _ _ (by simp),
      nvsLookup_set_other _ _ _ _ _ _ (by simp),
      nvsLookup_set_other _ _ _ _ _ _ (by simp),
      nvsLookup_set_same]
  have hpass : nvsLookup (submit_post_handler nvs ssid pass uri user mpass).1
      "wifi_store" "password" = some pass := by
    simp only [submit_post_handler, nvs_set_str_checked, hsetp]
    rw [nvsLookup_set_other _ _ _ _ _ _ (by simp),
      nvsLookup_set_other _ _ _ _ _ _ (by simp),
      nvsLookup_set_other _ _ _ _ _ _ (by simp),
      nvsLookup_set_same]
  have hopen : nvs_open_ro (submit_post_handler nvs ssid pass uri user mpass).1
      "wifi_store" = .ok :=
    nvs_open_ro_of_lookup _ _ _ _ hssid
  have hget_s : nvs_get_str (submit_post_handler nvs ssid pass uri user mpass).1
      "wifi_store" "ssid" 32 = (.ok, ssid) := by
    simp [nvs_get_str, hssid, hs]
  have hget_p : nvs_get_str (submit_post_handler nvs ssid pass uri user mpass).1
      "wifi_store" "password" 64 = (.ok, pass) := by
    simp [nvs_get_str, hpass, hpw]
  refine ⟨hssid, hpass, ?_, ?_, rfl⟩
  · simp [creds_valid, hopen, hget_s, hget_p, hne]
  · simp [wifi_init_sta_read, hopen, hget_s, hget_p]

/-- Witness for C7 (amended): submitting "MyNet"/"pw1234" (plus MQTT
settings) on an empty store. -/
theorem C7_amended_submit_persists_witness :
    nvsLookup (submit_post_handler [] "MyNet" "pw1234" "mqtt:u" "u" "p").1
      "wifi_store" "ssid" = some "MyNet" ∧
    nvsLookup (submit_post_handler [] "MyNet" "pw1234" "mqtt:u" "u" "p").1
      "wifi_store" "password" = some "pw1234" ∧
    creds_valid (submit_post_handler [] "MyNet" "pw1234" "mqtt:u" "u" "p").1 = true ∧
    wifi_init_sta_read (submit_post_handler [] "MyNet" "pw1234" "mqtt:u" "u" "p").1 =
      some ("MyNet", "pw1234") ∧
    (submit_post_handler [] "MyNet" "pw1234" "mqtt:u" "u" "p").2 =
      [.nvsCommitWifi, .nvsCommitMqtt, .respond, .delayMs 500, .restart] :=
  C7_amended_submit_persists [] "MyNet" "pw1234" "mqtt:u" "u" "p"
    (by decide) (by decide) (by decide)

/-! ## C8 — SoftAP SSID derivation -/

/-- The hex-digit table is injective on nibbles. -/
theorem hexDigit_inj_fin : ∀ a b : Fin 16, hexDigit a.val = hexDigit b.val → a = b := by
  decide

/-- Byte rendering as two hex digits is injective on bytes. -/
theorem hex2_inj (a b : Nat) (ha : a < 256) (hb : b < 256)
    (h : hex2 a = hex2 b) : a = b := by
  simp only [hex2, List.cons.injEq, and_true] at h
  obtain ⟨h1, h2⟩ := h
  have hv1 : a / 16 % 16 = b / 16 % 16 := by
    have hf := hexDigit_inj_fin ⟨a / 16 % 16, Nat.mod_lt _ (by norm_num)⟩
      ⟨b / 16 % 16, Nat.mod_lt _ (by norm_num)⟩ h1
    exact congrArg Fin.val hf
  have hv2 : a % 16 = b % 16 := by
    have hf := hexDigit_inj_fin ⟨a % 16, Nat.mod_lt _ (by norm_num)⟩
      ⟨b % 16, Nat.mod_lt _ (by norm_num)⟩ h2
    exact congrArg Fin.val hf
  omega

/-- Two MAC addresses agreeing on bytes 3..5 but not on byte 0. -/
def macA : MacAddr := ⟨0, 0, 0, 0, 0, 0⟩

/-- A MAC differing from `macA` only in byte 0. -/
def macB : MacAddr := ⟨1, 0, 0, 0, 0, 0⟩

/-- C8 counterexample: `macA` and `macB` are different hardware
identifiers, yet the derived access-point names are identical (only the
last three bytes enter the name). -/
theorem C8_counterexample : macA ≠ macB ∧ apSsid macA = apSsid macB := by
  refine ⟨by decide, by decide⟩

/-- C8 (amended): the access-point name is derived deterministically from
the last three bytes of the hardware identifier and is injective in that
suffix — two devices whose identifiers differ within bytes 3..5 advertise
different names — and the derived name is never the fixed draft literal
"ESP32_Setup". -/
theorem C8_amended_suffix_inj (m m' : MacAddr)
    (h3 : m.b3 < 256) (h4 : m.b4 < 256) (h5 : m.b5 < 256)
    (h3' : m'.b3 < 256) (h4' : m'.b4 < 256) (h5' : m'.b5 < 256)
    (hdiff : m.b3 ≠ m'.b3 ∨ m.b4 ≠ m'.b4 ∨ m.b5 ≠ m'.b5) :
    apSsid m ≠ apSsid m' ∧ apSsid m ≠ "ESP32_Setup" := by
  constructor
  · intro h
    have hd : apSsidChars m = apSsidChars m' := by
      have := congrArg String.data h
      simpa [apSsid] using this
    simp only [apSsidChars, List.append_assoc] at hd
    have hrest := List.append_cancel_left hd
    obtain ⟨e3, hrest2⟩ := List.append_inj hrest rfl
    obtain ⟨e4, e5⟩ := List.append_inj hrest2 rfl
    rcases hdiff with hne | hne | hne
    · exact hne (hex2_inj _ _ h3 h3' e3)
    · exact hne (hex2_inj _ _ h4 h4' e4)
    · exact hne (hex2_inj _ _ h5 h5' e5)
  · intro h
    have hd := congrArg String.data h
    have hlen := congrArg List.length hd
    have h12 : ("ESP32_Setup_".toList).length = 12 := rfl
    have h11 : ("ESP32_Setup".data).length = 11 := rfl
    simp [apSsid, apSsidChars, hex2, h12, h11, List.length_append] at hlen

/-- Witness for C8 (amended): `macW` against a MAC differing in byte 5. -/
theorem C8_amended_suffix_inj_witness :
    apSsid macW ≠ apSsid ⟨0x24, 0x6F, 0x28, 0xAB, 0xCD, 0xF0⟩ ∧
    apSsid macW ≠ "ESP32_Setup" :=
  C8_amended_suffix_inj macW ⟨0x24, 0x6F, 0x28, 0xAB, 0xCD, 0xF0⟩
    (by decide) (by decide) (by decide) (by decide) (by decide) (by decide)
    (Or.inr (Or.inr (by decide)))
